import Mathlib

/-!
Verification of the mininet3 / mirror_net core against its specification.

The Python source is shallowly embedded: Python dicts become insertion-ordered
association lists, exceptions become an explicit error kind threaded through
results, object mutation becomes explicit state passing, and the external
Docker execution collaborator becomes an explicit runtime-state record.
Error kinds follow the taxonomy of the specification (kinds, not concrete
exception classes): messages are not modelled.
-/

namespace Mininet3

/-- Error kinds raised by the embedded code.  `valueError`, `keyError`,
`attributeError`, `notImplementedError`, `stopIteration` mirror the Python
exception classes; `nullResource` and `dockerNotFound` mirror the errors of
the docker client used as the execution collaborator. -/
inductive PyErr where
  | valueError
  | keyError
  | attributeError
  | notImplementedError
  | stopIteration
  | nullResource
  | dockerNotFound
deriving DecidableEq

/-- Python dict assignment `d[k] = v`: replace in place if the key is present
(keeping its position), append otherwise. -/
def dictSet {κ α : Type} [DecidableEq κ] : List (κ × α) → κ → α → List (κ × α)
  | [], k, v => [(k, v)]
  | (k', v') :: rest, k, v =>
    if k' = k then (k, v) :: rest else (k', v') :: dictSet rest k v

/-- Python `d.get(k)` / `k in d`: first binding of the key, if any. -/
def dictGet {κ α : Type} [DecidableEq κ] : List (κ × α) → κ → Option α
  | [], _ => none
  | (k', v') :: rest, k => if k' = k then some v' else dictGet rest k

/-- Python `d.pop(k)` (the removal part): drop the first binding of the key. -/
def dictPop {κ α : Type} [DecidableEq κ] : List (κ × α) → κ → List (κ × α)
  | [], _ => []
  | (k', v') :: rest, k => if k' = k then rest else (k', v') :: dictPop rest k

/-- A Python dict never binds a key twice; association lists reachable from
the embedded operations satisfy this. -/
def keysNodup {κ α : Type} (l : List (κ × α)) : Prop :=
  (l.map Prod.fst).Nodup

instance {ε α : Type} [DecidableEq ε] [DecidableEq α] : DecidableEq (Except ε α) :=
  fun a b =>
    match a, b with
    | .error x, .error y =>
      if h : x = y then .isTrue (by rw [h]) else .isFalse (by simp [h])
    | .ok x, .ok y =>
      if h : x = y then .isTrue (by rw [h]) else .isFalse (by simp [h])
    | .error _, .ok _ => .isFalse (by simp)
    | .ok _, .error _ => .isFalse (by simp)

theorem dictGet_dictSet_self {κ α : Type} [DecidableEq κ]
    (l : List (κ × α)) (k : κ) (v : α) : dictGet (dictSet l k v) k = some v := by
  induction l with
  | nil => simp [dictSet, dictGet]
  | cons hd tl ih =>
    by_cases h : hd.1 = k
    · simp [dictSet, dictGet, h]
    · simpa [dictSet, dictGet, h] using ih

theorem dictSet_dictSet {κ α : Type} [DecidableEq κ]
    (l : List (κ × α)) (k : κ) (v w : α) :
    dictSet (dictSet l k v) k w = dictSet l k w := by
  induction l with
  | nil => simp [dictSet]
  | cons hd tl ih =>
    by_cases h : hd.1 = k
    · simp [dictSet, h]
    · simpa [dictSet, h] using ih

theorem dictGet_eq_none_of_not_mem {κ α : Type} [DecidableEq κ]
    (l : List (κ × α)) (k : κ) (h : k ∉ l.map Prod.fst) : dictGet l k = none := by
  induction l with
  | nil => simp [dictGet]
  | cons hd tl ih =>
    simp only [List.map_cons, List.mem_cons] at h
    push_neg at h
    have hne : hd.1 ≠ k := fun hc => h.1 hc.symm
    cases hd with
    | mk a b => simpa [dictGet, hne] using ih h.2

theorem dictGet_dictPop_self {κ α : Type} [DecidableEq κ]
    (l : List (κ × α)) (k : κ) (h : keysNodup l) :
    dictGet (dictPop l k) k = none := by
  induction l with
  | nil => simp [dictPop, dictGet]
  | cons hd tl ih =>
    simp only [keysNodup, List.map_cons, List.nodup_cons] at h
    by_cases hk : hd.1 = k
    · cases hd with
      | mk a b =>
        simp only at hk
        subst hk
        simp only [dictPop, if_pos rfl]
        exact dictGet_eq_none_of_not_mem tl a h.1
    · cases hd with
      | mk a b =>
        simp only at hk
        simpa [dictPop, dictGet, hk] using ih h.2

/-! ## Interfaces, links, and the docker runtime

`Interface` embeds `mininet3/core/interface_lib.py`: the class holds no
state of its own, so an instance is just an object identity.  `LinkObj`
embeds the `Link` class of `mirror_net/core/link_lib.py` (the module
`mininet3.core.link_lib` imported by `topology_lib.py` is absent from the
tree; the mirror tree carries the same file): it likewise holds no state,
and in particular has neither a `stop` nor a `src`/`dst` attribute. -/

/-- One network interface object (`interface_lib.Interface`); the class body
is empty, so only the object identity distinguishes instances. -/
structure Interface where
  ifid : Nat
deriving DecidableEq

/-- Keys of a node's `interfaces` dict.  Construction inserts integer keys;
`Topology.add_link` inserts the parsed port *string* as a key. -/
inductive IKey where
  | idx (n : Nat)
  | str (s : String)
deriving DecidableEq

/-- Values of a node's `interfaces` dict.  Construction stores `Interface`
objects; `Topology.add_link` stores the peer port *string*. -/
inductive IVal where
  | iface (i : Interface)
  | port (s : String)
deriving DecidableEq

/-- A link object (`link_lib.Link`): the class body is empty. -/
inductive LinkObj where
  | mk
deriving DecidableEq

/-- State of the external docker execution collaborator: a fresh-id counter
and the containers it knows, each with a running flag. -/
structure DockerEnv where
  nextId : Nat
  containers : List (Nat × Bool)
deriving DecidableEq

/-- `docker_client.containers.run(image, command)`: create a fresh running
container and return its id. -/
def DockerEnv.run (env : DockerEnv) : Nat × DockerEnv :=
  (env.nextId, ⟨env.nextId + 1, (env.nextId, true) :: env.containers⟩)

/-- `docker_client.containers.get(cid)`: a `None` id raises `NullResource`,
an unknown id raises `NotFound`; otherwise the container handle is found. -/
def DockerEnv.get (env : DockerEnv) (cid : Option Nat) : Except PyErr Nat :=
  match cid with
  | none => .error .nullResource
  | some i =>
    match dictGet env.containers i with
    | none => .error .dockerNotFound
    | some _ => .ok i

/-- `container.stop()`: mark the container as stopped (succeeds whether or
not it was still running). -/
def DockerEnv.stopContainer (env : DockerEnv) (i : Nat) : DockerEnv :=
  ⟨env.nextId, dictSet env.containers i false⟩

/-- `node_lib.DockerNode` execution state: image, command and the recorded
container id.  Python truthiness (`not self.image`) is modelled by `Option`:
`none` stands for `None` or the empty string. -/
structure DockerNode where
  image : Option String
  command : Option String
  container_id : Option Nat
deriving DecidableEq

/-- `DockerNode.start`: missing image or command raises `ValueError`;
otherwise a container is run and its id recorded. -/
def DockerNode.start (n : DockerNode) (env : DockerEnv) :
    DockerNode × DockerEnv × Option PyErr :=
  if n.image.isNone || n.command.isNone then
    (n, env, some .valueError)
  else
    let (cid, env') := env.run
    ({ n with container_id := some cid }, env', none)

/-- `DockerNode.async_start`: the source delegates to the synchronous
`start`. -/
def DockerNode.async_start (n : DockerNode) (env : DockerEnv) :
    DockerNode × DockerEnv × Option PyErr :=
  n.start env

/-- `DockerNode.stop`: looks the recorded container up (raising for a `None`
or unknown id) and stops it. -/
def DockerNode.stop (n : DockerNode) (env : DockerEnv) :
    DockerNode × DockerEnv × Option PyErr :=
  match env.get n.container_id with
  | .error e => (n, env, some e)
  | .ok i => (n, env.stopContainer i, none)

/-- `DockerNode.async_stop`: the source delegates to the synchronous
`stop`. -/
def DockerNode.async_stop (n : DockerNode) (env : DockerEnv) :
    DockerNode × DockerEnv × Option PyErr :=
  n.stop env

/-! ## Nodes stored in a topology

A stored node is either a plain `Node`/`Host`/`Switch` (whose inherited
`start`/`stop` raise `NotImplementedError`) or a docker-backed node. -/

/-- Behavioural variant of a stored node. -/
inductive NodeImpl where
  | plain
  | docker (d : DockerNode)
deriving DecidableEq

/-- A node object held by a topology: object identity, its `interfaces`
dict, and its behavioural variant. -/
structure TNode where
  id : Nat
  interfaces : List (IKey × IVal)
  impl : NodeImpl
deriving DecidableEq

/-- `node.start()` on a stored node: the base class raises
`NotImplementedError`; a docker node runs `DockerNode.start`. -/
def TNode.start (n : TNode) (env : DockerEnv) : TNode × DockerEnv × Option PyErr :=
  match n.impl with
  | .plain => (n, env, some .notImplementedError)
  | .docker d =>
    let (d', env', e) := d.start env
    ({ n with impl := .docker d' }, env', e)

/-- `node.async_start()`: the base class raises `NotImplementedError`; a
docker node delegates to its synchronous `start`. -/
def TNode.async_start (n : TNode) (env : DockerEnv) : TNode × DockerEnv × Option PyErr :=
  match n.impl with
  | .plain => (n, env, some .notImplementedError)
  | .docker d =>
    let (d', env', e) := d.async_start env
    ({ n with impl := .docker d' }, env', e)

/-- `node.stop()` on a stored node. -/
def TNode.stop (n : TNode) (env : DockerEnv) : TNode × DockerEnv × Option PyErr :=
  match n.impl with
  | .plain => (n, env, some .notImplementedError)
  | .docker d =>
    let (d', env', e) := d.stop env
    ({ n with impl := .docker d' }, env', e)

/-- `node.async_stop()` on a stored node. -/
def TNode.async_stop (n : TNode) (env : DockerEnv) : TNode × DockerEnv × Option PyErr :=
  match n.impl with
  | .plain => (n, env, some .notImplementedError)
  | .docker d =>
    let (d', env', e) := d.async_stop env
    ({ n with impl := .docker d' }, env', e)

/-! ## The nodes-package registry (`mininet3/core/nodes/__init__.py`)

`NODES_BY_TYPE` maps a kind string to that kind's name-to-class table, and
`get_cls_by_name` resolves a `(name, node_type)` pair against it.  Factories
are opaque class objects distinguished by identity.  Registration is a plain
dict insertion into the kind's table: the code registers by mutating these
dicts (`HOST_TYPES.update(Host.subclasses)` in the plugin-loading step of
`mirror_net/mn.py`, fed by `Host.__init_subclass__` of `host_lib.py`). -/

namespace Nodes

/-- An opaque registered class object, distinguished by identity. -/
structure Factory where
  fid : Nat
deriving DecidableEq

/-- The per-kind tables of `NODES_BY_TYPE`.  The `host` and `link` tables
come from `core/nodes/hosts.py` and `core/nodes/links.py`; the files for the
controller, interface and switch tables are absent from the tree, so they
are modelled from the spec (a `default` built-in each, per section 3). -/
def NODES_BY_TYPE : List (String × List (String × Factory)) :=
  [("controller", [("default", ⟨0⟩)]),
   ("host", [("default", ⟨1⟩)]),
   ("interface", [("default", ⟨2⟩)]),
   ("link", [("default", ⟨3⟩)]),
   ("switch", [("default", ⟨4⟩)])]

/-- `get_cls_by_name(name, node_type)`: an unknown kind or an unknown name
raises `ValueError`; otherwise the registered class is returned.  The
registry state is passed explicitly (in Python it is the module-level
mutable `NODES_BY_TYPE`). -/
def get_cls_by_name (tables : List (String × List (String × Factory)))
    (name node_type : String) : Except PyErr Factory :=
  match dictGet tables node_type with
  | none => .error .valueError
  | some tbl =>
    match dictGet tbl name with
    | none => .error .valueError
    | some cls => .ok cls

/-- Registration of a factory under `(kind, name)`: dict insertion into the
kind's table, which is how the source registers (the plugin step updates
the `*_TYPES` dicts with the subclass registry). -/
def registerFactory (tables : List (String × List (String × Factory)))
    (kind name : String) (f : Factory) : List (String × List (String × Factory)) :=
  match dictGet tables kind with
  | none => tables
  | some tbl => dictSet tables kind (dictSet tbl name f)

end Nodes

/-! ## Node type tables and construction (`host_lib.py`, `switch_lib.py`,
`interface_lib.py`, `node_lib.py`)

`HOST_TYPES`/`SWITCH_TYPES` map type names to node classes; `get_node_cls`
consults hosts first.  Constructing a node runs `Node.__init__`, which
validates the interface type and creates `num_interfaces` fresh `Interface`
objects at the integer indices `0..num_interfaces-1`; a docker class also
records image and command. -/

/-- A concrete node class resolvable through the type tables. -/
inductive NodeClass where
  | hostCls
  | dockerHostCls
  | switchCls
  | dockerSwitchCls
deriving DecidableEq

/-- `host_lib.HOST_TYPES`. -/
def HOST_TYPES : List (String × NodeClass) :=
  [("default", .hostCls), ("docker", .dockerHostCls)]

/-- `switch_lib.SWITCH_TYPES`. -/
def SWITCH_TYPES : List (String × NodeClass) :=
  [("default", .switchCls), ("docker", .dockerSwitchCls)]

/-- `interface_lib.INTERFACE_TYPES`: only the default interface class. -/
def INTERFACE_TYPES : List (String × Unit) :=
  [("default", ())]

/-- `link_lib.LINK_TYPES`: only the default link class. -/
def LINK_TYPES : List (String × Unit) :=
  [("default", ())]

/-- Keyword arguments accepted by node construction.  `Option` models
Python `None`/missing (and empty-string falsiness for image/command). -/
structure Kwargs where
  image : Option String
  command : Option String
  num_interfaces : Nat
  interface_type : String
deriving DecidableEq

/-- `Node.__init__`: validates the interface type against
`INTERFACE_TYPES` (unknown type raises `ValueError`) and builds the dict
`{index: Interface() for index in range(num_interfaces)}`.  `c` is the
fresh-object counter providing identities. -/
def nodeInit (kw : Kwargs) (c : Nat) : Except PyErr (List (IKey × IVal) × Nat) :=
  match dictGet INTERFACE_TYPES kw.interface_type with
  | none => .error .valueError
  | some _ =>
    .ok ((List.range kw.num_interfaces).map
          (fun i => (IKey.idx i, IVal.iface ⟨c + i⟩)), c + kw.num_interfaces)

/-- `node_cls(**kwargs)`: construct a node of the given class.  Plain
classes only run `Node.__init__`; docker classes additionally record image
and command with a cleared container id. -/
def NodeClass.construct (ncls : NodeClass) (kw : Kwargs) (c : Nat) :
    Except PyErr (TNode × Nat) :=
  match nodeInit kw c with
  | .error e => .error e
  | .ok (ifs, c') =>
    match ncls with
    | .hostCls => .ok (⟨c', ifs, .plain⟩, c' + 1)
    | .switchCls => .ok (⟨c', ifs, .plain⟩, c' + 1)
    | .dockerHostCls => .ok (⟨c', ifs, .docker ⟨kw.image, kw.command, none⟩⟩, c' + 1)
    | .dockerSwitchCls => .ok (⟨c', ifs, .docker ⟨kw.image, kw.command, none⟩⟩, c' + 1)

/-- `Topology.get_node_cls(name)` as a function of the two (mutable) type
tables: `HOST_TYPES.get(name, SWITCH_TYPES.get(name))`, raising
`ValueError` when neither table knows the name. -/
def get_node_cls_in (hostTypes switchTypes : List (String × NodeClass))
    (name : String) : Except PyErr NodeClass :=
  match dictGet hostTypes name with
  | some cls => .ok cls
  | none =>
    match dictGet switchTypes name with
    | some cls => .ok cls
    | none => .error .valueError

/-- `Topology.get_node_cls` applied to the built-in tables. -/
def get_node_cls (name : String) : Except PyErr NodeClass :=
  get_node_cls_in HOST_TYPES SWITCH_TYPES name

/-- `Topology.get_link_cls(name)`: `LINK_TYPES.get(name)` — a `None`
argument (the default of `add_link`) or an unknown name raises
`ValueError`. -/
def get_link_cls (name : Option String) : Except PyErr Unit :=
  match name with
  | none => .error .valueError
  | some s =>
    match dictGet LINK_TYPES s with
    | none => .error .valueError
    | some cls => .ok cls

/-! ## The topology (`mininet3/core/topology_lib.py`)

A `Topology` owns the three insertion-ordered name collections and the
default type selectors used when an add operation is not given an explicit
type.  Mutating operations return the post-state together with the raised
error, if any, because Python mutations made before a raise persist. -/

/-- The `Topology` state: default type selectors and the three
collections. -/
structure Topology where
  host_type : String
  switch_type : String
  controller_type : String
  link_type : String
  hosts : List (String × TNode)
  switches : List (String × TNode)
  links : List (String × LinkObj)
deriving DecidableEq

/-- `Topology.get_node_by_name(name)`:
`self.hosts.get(name, self.switches.get(name))`, raising `KeyError` when
neither collection holds the name — a host always shadows a same-named
switch. -/
def Topology.get_node_by_name (t : Topology) (name : String) : Except PyErr TNode :=
  match dictGet t.hosts name with
  | some n => .ok n
  | none =>
    match dictGet t.switches name with
    | some n => .ok n
    | none => .error .keyError

/-- The argument accepted for `node_cls` by `add_node`: a type-name string,
a class object passed directly, or Python `None` (fall back to the
topology's default type for the category). -/
inductive NodeClsArg where
  | byName (s : String)
  | byCls (c : NodeClass)
  | pynone
deriving DecidableEq

/-- The `node_cls` resolution prefix of `Topology.add_node`: `None` picks
the topology's default type string for the category, and a string is then
resolved through `get_node_cls`. -/
def Topology.resolveNodeCls (t : Topology) (node_type : String)
    (node_cls : NodeClsArg) : Except PyErr NodeClass :=
  match node_cls with
  | .byCls c => .ok c
  | .byName s => get_node_cls s
  | .pynone =>
    if node_type = "hosts" then get_node_cls t.host_type
    else if node_type = "switches" then get_node_cls t.switch_type
    else get_node_cls t.controller_type

/-- `Topology.add_node(name, node_type, node_cls, **kwargs)`: validates the
category (`ValueError` otherwise), resolves and constructs the node class,
stores the node under `name` with plain dict assignment (no duplicate
check), and finally starts it — mutations the start makes to the stored
object remain visible through the collection, and a start failure does not
undo the store.  Note `getattr(self, 'controllers')` raises
`AttributeError`: the class has no `controllers` collection. -/
def Topology.add_node (t : Topology) (env : DockerEnv) (c : Nat)
    (name node_type : String) (node_cls : NodeClsArg) (kw : Kwargs) :
    Topology × DockerEnv × Nat × Option PyErr :=
  if ¬ (node_type = "controllers" ∨ node_type = "hosts" ∨ node_type = "switches") then
    (t, env, c, some .valueError)
  else
    match t.resolveNodeCls node_type node_cls with
    | .error e => (t, env, c, some e)
    | .ok ncls =>
      match ncls.construct kw c with
      | .error e => (t, env, c, some e)
      | .ok (node, c') =>
        if node_type = "hosts" then
          let (n', env', e) := node.start env
          ({ t with hosts := dictSet (dictSet t.hosts name node) name n' }, env', c', e)
        else if node_type = "switches" then
          let (n', env', e) := node.start env
          ({ t with switches := dictSet (dictSet t.switches name node) name n' }, env', c', e)
        else
          (t, env, c', some .attributeError)

/-- `Topology.async_add_node`: same body as `add_node` but starting the
stored node with `async_start`. -/
def Topology.async_add_node (t : Topology) (env : DockerEnv) (c : Nat)
    (name node_type : String) (node_cls : NodeClsArg) (kw : Kwargs) :
    Topology × DockerEnv × Nat × Option PyErr :=
  if ¬ (node_type = "controllers" ∨ node_type = "hosts" ∨ node_type = "switches") then
    (t, env, c, some .valueError)
  else
    match t.resolveNodeCls node_type node_cls with
    | .error e => (t, env, c, some e)
    | .ok ncls =>
      match ncls.construct kw c with
      | .error e => (t, env, c, some e)
      | .ok (node, c') =>
        if node_type = "hosts" then
          let (n', env', e) := node.async_start env
          ({ t with hosts := dictSet (dictSet t.hosts name node) name n' }, env', c', e)
        else if node_type = "switches" then
          let (n', env', e) := node.async_start env
          ({ t with switches := dictSet (dictSet t.switches name node) name n' }, env', c', e)
        else
          (t, env, c', some .attributeError)

/-- `Topology.remove_node(name, node_type)`: validates the category
(`ValueError` outside hosts/links/switches), raises `KeyError` when the
name is absent, otherwise pops the entry and then stops the popped object;
a stop failure does not restore the entry.  Popping from `links` reaches
`link.stop()`, which raises `AttributeError` (the link class has no
`stop`). -/
def Topology.remove_node (t : Topology) (env : DockerEnv)
    (name node_type : String) : Topology × DockerEnv × Option PyErr :=
  if ¬ (node_type = "hosts" ∨ node_type = "links" ∨ node_type = "switches") then
    (t, env, some .valueError)
  else if node_type = "hosts" then
    match dictGet t.hosts name with
    | none => (t, env, some .keyError)
    | some n =>
      let (_, env', e) := n.stop env
      ({ t with hosts := dictPop t.hosts name }, env', e)
  else if node_type = "switches" then
    match dictGet t.switches name with
    | none => (t, env, some .keyError)
    | some n =>
      let (_, env', e) := n.stop env
      ({ t with switches := dictPop t.switches name }, env', e)
  else
    match dictGet t.links name with
    | none => (t, env, some .keyError)
    | some _ =>
      ({ t with links := dictPop t.links name }, env, some .attributeError)

/-- `Topology.async_remove_node`: same body as `remove_node` but stopping
the popped object with `async_stop` (for a link, `link.async_stop()`
likewise raises `AttributeError`). -/
def Topology.async_remove_node (t : Topology) (env : DockerEnv)
    (name node_type : String) : Topology × DockerEnv × Option PyErr :=
  if ¬ (node_type = "hosts" ∨ node_type = "links" ∨ node_type = "switches") then
    (t, env, some .valueError)
  else if node_type = "hosts" then
    match dictGet t.hosts name with
    | none => (t, env, some .keyError)
    | some n =>
      let (_, env', e) := n.async_stop env
      ({ t with hosts := dictPop t.hosts name }, env', e)
  else if node_type = "switches" then
    match dictGet t.switches name with
    | none => (t, env, some .keyError)
    | some n =>
      let (_, env', e) := n.async_stop env
      ({ t with switches := dictPop t.switches name }, env', e)
  else
    match dictGet t.links name with
    | none => (t, env, some .keyError)
    | some _ =>
      ({ t with links := dictPop t.links name }, env, some .attributeError)

/-- `"name.port".rsplit('.', 1)` followed by two-way unpacking: split at the
last separator; a string without the separator yields a single-element list
and the unpacking raises `ValueError` (modelled as `none`). -/
def rsplitLastAux (sep : Char) : List Char → Option (List Char × List Char)
  | [] => none
  | ch :: rest =>
    match rsplitLastAux sep rest with
    | some (a, b) => some (ch :: a, b)
    | none => if ch = sep then some ([], rest) else none

/-- `s.rsplit('.', 1)` with two-way unpacking, on strings. -/
def rsplitDot (s : String) : Option (String × String) :=
  match rsplitLastAux '.' s.data with
  | some (a, b) => some (String.mk a, String.mk b)
  | none => none

/-- Write one entry of the `interfaces` dict of the node that
`get_node_by_name` resolves `name` to — the hosts entry when present,
otherwise the switches entry (callers only use this after a successful
lookup). -/
def Topology.setIfaceOfNode (t : Topology) (name : String) (k : IKey) (v : IVal) :
    Topology :=
  match dictGet t.hosts name with
  | some n =>
    { t with hosts := dictSet t.hosts name { n with interfaces := dictSet n.interfaces k v } }
  | none =>
    match dictGet t.switches name with
    | some n =>
      { t with switches := dictSet t.switches name { n with interfaces := dictSet n.interfaces k v } }
    | none => t

/-- `Topology.add_link(name, src_port, dst_port, link_type, **kwargs)`:
parses both `"node.port"` strings, resolves both nodes (`KeyError` when one
is missing), then assigns `src_node.interfaces[src_port] = dst_port` and
`dst_node.interfaces[dst_port] = src_port` — the parsed port *strings*, not
interface objects.  Only then is the link class resolved (`ValueError` for
the default `None` or an unknown type, with the interface writes already
made), a bare link object constructed, and stored under `name` with plain
dict assignment (no duplicate check). -/
def Topology.add_link (t : Topology) (name src_port dst_port : String)
    (link_type : Option String) : Topology × Option PyErr :=
  match rsplitDot src_port with
  | none => (t, some .valueError)
  | some (src, sp) =>
    match t.get_node_by_name src with
    | .error e => (t, some e)
    | .ok _ =>
      match rsplitDot dst_port with
      | none => (t, some .valueError)
      | some (dst, dp) =>
        match t.get_node_by_name dst with
        | .error e => (t, some e)
        | .ok _ =>
          let t1 := t.setIfaceOfNode src (IKey.str sp) (IVal.port dp)
          let t2 := t1.setIfaceOfNode dst (IKey.str dp) (IVal.port sp)
          match get_link_cls link_type with
          | .error e => (t2, some e)
          | .ok _ => ({ t2 with links := dictSet t2.links name LinkObj.mk }, none)

/-- `Topology.remove_link(name)`: `self.links.pop(name, None)` raises
`KeyError` when the name is absent; otherwise the entry is popped and
`link.stop()` is reached — which raises `AttributeError`, because the link
class defines no `stop`, so the interface-clearing tail of the method is
never executed and no endpoint is restored. -/
def Topology.remove_link (t : Topology) (name : String) : Topology × Option PyErr :=
  match dictGet t.links name with
  | none => (t, some .keyError)
  | some _ =>
    ({ t with links := dictPop t.links name }, some .attributeError)

/-! ## Topology start/stop

The start and stop methods iterate the hosts, then the switches, then the
links, calling the per-node lifecycle method; a raise aborts the iteration.
An `Event` records each lifecycle invocation in order (the externally
observable effect of the loops). -/

/-- A lifecycle invocation on a named entity of a category. -/
inductive Event where
  | startHost (name : String)
  | startSwitch (name : String)
  | startLink (name : String)
  | stopHost (name : String)
  | stopSwitch (name : String)
  | stopLink (name : String)
deriving DecidableEq

/-- The host/switch loop of `Topology.start`: start each stored node in
insertion order, recording the invocation; a raise aborts the loop, with
mutations already made kept. -/
def startNodesLoop (mkEv : String → Event) :
    List (String × TNode) → DockerEnv →
    List (String × TNode) × DockerEnv × List Event × Option PyErr
  | [], env => ([], env, [], none)
  | (nm, n) :: rest, env =>
    let (n', env', e) := n.start env
    match e with
    | some err => ((nm, n') :: rest, env', [mkEv nm], some err)
    | none =>
      let (rest', env'', evs, e') := startNodesLoop mkEv rest env'
      ((nm, n') :: rest', env'', mkEv nm :: evs, e')

/-- The link loop of `Topology.start`: `link.start()` on the first link
raises `AttributeError` (the link class defines no `start`), so the loop
never gets past a first link. -/
def startLinksLoop (mkEv : String → Event) :
    List (String × LinkObj) → List (String × LinkObj) × List Event × Option PyErr
  | [] => ([], [], none)
  | (nm, l) :: rest => ((nm, l) :: rest, [mkEv nm], some .attributeError)

/-- `Topology.start()`: hosts in insertion order, then switches, then
links. -/
def Topology.start (t : Topology) (env : DockerEnv) :
    Topology × DockerEnv × List Event × Option PyErr :=
  let (hs, env1, ev1, e1) := startNodesLoop Event.startHost t.hosts env
  match e1 with
  | some err => ({ t with hosts := hs }, env1, ev1, some err)
  | none =>
    let (sw, env2, ev2, e2) := startNodesLoop Event.startSwitch t.switches env1
    match e2 with
    | some err => ({ t with hosts := hs, switches := sw }, env2, ev1 ++ ev2, some err)
    | none =>
      let (lk, ev3, e3) := startLinksLoop Event.startLink t.links
      ({ t with hosts := hs, switches := sw, links := lk }, env2, ev1 ++ ev2 ++ ev3, e3)

/-- The host/switch loop of `Topology.async_start` (awaiting
`async_start`). -/
def asyncStartNodesLoop (mkEv : String → Event) :
    List (String × TNode) → DockerEnv →
    List (String × TNode) × DockerEnv × List Event × Option PyErr
  | [], env => ([], env, [], none)
  | (nm, n) :: rest, env =>
    let (n', env', e) := n.async_start env
    match e with
    | some err => ((nm, n') :: rest, env', [mkEv nm], some err)
    | none =>
      let (rest', env'', evs, e') := asyncStartNodesLoop mkEv rest env'
      ((nm, n') :: rest', env'', mkEv nm :: evs, e')

/-- The link loop of `Topology.async_start`: `link.async_start()` likewise
raises `AttributeError`. -/
def asyncStartLinksLoop (mkEv : String → Event) :
    List (String × LinkObj) → List (String × LinkObj) × List Event × Option PyErr
  | [] => ([], [], none)
  | (nm, l) :: rest => ((nm, l) :: rest, [mkEv nm], some .attributeError)

/-- `Topology.async_start()`. -/
def Topology.async_start (t : Topology) (env : DockerEnv) :
    Topology × DockerEnv × List Event × Option PyErr :=
  let (hs, env1, ev1, e1) := asyncStartNodesLoop Event.startHost t.hosts env
  match e1 with
  | some err => ({ t with hosts := hs }, env1, ev1, some err)
  | none =>
    let (sw, env2, ev2, e2) := asyncStartNodesLoop Event.startSwitch t.switches env1
    match e2 with
    | some err => ({ t with hosts := hs, switches := sw }, env2, ev1 ++ ev2, some err)
    | none =>
      let (lk, ev3, e3) := asyncStartLinksLoop Event.startLink t.links
      ({ t with hosts := hs, switches := sw, links := lk }, env2, ev1 ++ ev2 ++ ev3, e3)

/-- The host/switch loop of `Topology.stop`. -/
def stopNodesLoop (mkEv : String → Event) :
    List (String × TNode) → DockerEnv →
    List (String × TNode) × DockerEnv × List Event × Option PyErr
  | [], env => ([], env, [], none)
  | (nm, n) :: rest, env =>
    let (n', env', e) := n.stop env
    match e with
    | some err => ((nm, n') :: rest, env', [mkEv nm], some err)
    | none =>
      let (rest', env'', evs, e') := stopNodesLoop mkEv rest env'
      ((nm, n') :: rest', env'', mkEv nm :: evs, e')

/-- `Topology.stop()`: hosts, then switches, then links, aborting at the
first raise (`link.stop()` raises `AttributeError` on a first link). -/
def Topology.stop (t : Topology) (env : DockerEnv) :
    Topology × DockerEnv × List Event × Option PyErr :=
  let (hs, env1, ev1, e1) := stopNodesLoop Event.stopHost t.hosts env
  match e1 with
  | some err => ({ t with hosts := hs }, env1, ev1, some err)
  | none =>
    let (sw, env2, ev2, e2) := stopNodesLoop Event.stopSwitch t.switches env1
    match e2 with
    | some err => ({ t with hosts := hs, switches := sw }, env2, ev1 ++ ev2, some err)
    | none =>
      let (lk, ev3, e3) := startLinksLoop Event.stopLink t.links
      ({ t with hosts := hs, switches := sw, links := lk }, env2, ev1 ++ ev2 ++ ev3, e3)

/-- The host/switch loop of `Topology.async_stop`. -/
def asyncStopNodesLoop (mkEv : String → Event) :
    List (String × TNode) → DockerEnv →
    List (String × TNode) × DockerEnv × List Event × Option PyErr
  | [], env => ([], env, [], none)
  | (nm, n) :: rest, env =>
    let (n', env', e) := n.async_stop env
    match e with
    | some err => ((nm, n') :: rest, env', [mkEv nm], some err)
    | none =>
      let (rest', env'', evs, e') := asyncStopNodesLoop mkEv rest env'
      ((nm, n') :: rest', env'', mkEv nm :: evs, e')

/-- `Topology.async_stop()`. -/
def Topology.async_stop (t : Topology) (env : DockerEnv) :
    Topology × DockerEnv × List Event × Option PyErr :=
  let (hs, env1, ev1, e1) := asyncStopNodesLoop Event.stopHost t.hosts env
  match e1 with
  | some err => ({ t with hosts := hs }, env1, ev1, some err)
  | none =>
    let (sw, env2, ev2, e2) := asyncStopNodesLoop Event.stopSwitch t.switches env1
    match e2 with
    | some err => ({ t with hosts := hs, switches := sw }, env2, ev1 ++ ev2, some err)
    | none =>
      let (lk, ev3, e3) := asyncStartLinksLoop Event.stopLink t.links
      ({ t with hosts := hs, switches := sw, links := lk }, env2, ev1 ++ ev2 ++ ev3, e3)

end Mininet3

namespace MirrorNet

/-! ## The per-node address allocator (`mirror_net/core/node_lib.py`)

`Node.__init__` builds `ipaddress.ip_network(base/cidr).hosts()` and
`generate_ip` draws `next(...)` from it.  The `hosts()` iterator of the
Python `ipaddress` module yields, for an IPv4 network of prefix at most 30,
every address strictly between the network and broadcast addresses in
ascending order; for a /31 it yields both addresses of the pair, and for a
/32 the single address.  Addresses are embedded as their 32-bit integer
values and the lazy iterator as the list it enumerates plus a consumed
count. -/

open Mininet3 in
/-- The ascending address list enumerated by
`ipaddress.ip_network(n/p).hosts()` for an IPv4 network address `n` and
prefix length `p`. -/
def ipHosts (n p : Nat) : List Nat :=
  if p ≤ 30 then (List.range (2 ^ (32 - p) - 2)).map (fun i => n + 1 + i)
  else if p = 31 then [n, n + 1]
  else [n]

/-- A valid IPv4 (network address, prefix) pair, as accepted by
`ipaddress.ip_network` in strict mode: the prefix is at most 32 and no host
bit of the address is set. -/
def validNet (n p : Nat) : Prop :=
  p ≤ 32 ∧ n < 2 ^ 32 ∧ n % 2 ^ (32 - p) = 0

instance (n p : Nat) : Decidable (validNet n p) := by
  unfold validNet
  infer_instance

/-- The state of `self.available_addresses`: the lazy `hosts()` iterator,
as its parameters plus the number of values already drawn. -/
structure Allocator where
  base : Nat
  cidr : Nat
  consumed : Nat
deriving DecidableEq

open Mininet3 in
/-- `Node.generate_ip`: `next(self.available_addresses)` — the next
unconsumed address, or `StopIteration` once the sequence is exhausted. -/
def Allocator.generate_ip (a : Allocator) : Except Mininet3.PyErr (Nat × Allocator) :=
  match (ipHosts a.base a.cidr).get? a.consumed with
  | some v => .ok (v, ⟨a.base, a.cidr, a.consumed + 1⟩)
  | none => .error .stopIteration

end MirrorNet

namespace Mininet3

/-! ## Helper lemmas -/

theorem tnode_async_start_eq (n : TNode) (env : DockerEnv) :
    n.async_start env = n.start env := by
  cases n with
  | mk i ifs impl => cases impl <;> rfl

theorem tnode_async_stop_eq (n : TNode) (env : DockerEnv) :
    n.async_stop env = n.stop env := by
  cases n with
  | mk i ifs impl => cases impl <;> rfl

theorem asyncStartNodesLoop_eq (mkEv : String → Event) (l : List (String × TNode))
    (env : DockerEnv) : asyncStartNodesLoop mkEv l env = startNodesLoop mkEv l env := by
  induction l generalizing env with
  | nil => rfl
  | cons hd tl ih =>
    cases hd with
    | mk nm n =>
      simp only [asyncStartNodesLoop, startNodesLoop, tnode_async_start_eq, ih]

theorem asyncStopNodesLoop_eq (mkEv : String → Event) (l : List (String × TNode))
    (env : DockerEnv) : asyncStopNodesLoop mkEv l env = stopNodesLoop mkEv l env := by
  induction l generalizing env with
  | nil => rfl
  | cons hd tl ih =>
    cases hd with
    | mk nm n =>
      simp only [asyncStopNodesLoop, stopNodesLoop, tnode_async_stop_eq, ih]

theorem asyncStartLinksLoop_eq (mkEv : String → Event) (l : List (String × LinkObj)) :
    asyncStartLinksLoop mkEv l = startLinksLoop mkEv l := by
  cases l <;> rfl

/-- C9: every operation present in both scheduling models — node and
topology start/stop, and the topology add/remove of a node — has the same
externally observable effects (state mutations, recorded lifecycle
invocations) and the same error outcome as its synchronous counterpart, on
every input and starting state. -/
theorem async_variants_equal_sync_variants :
    (∀ (n : DockerNode) (env : DockerEnv), n.async_start env = n.start env) ∧
    (∀ (n : DockerNode) (env : DockerEnv), n.async_stop env = n.stop env) ∧
    (∀ (n : TNode) (env : DockerEnv), n.async_start env = n.start env) ∧
    (∀ (n : TNode) (env : DockerEnv), n.async_stop env = n.stop env) ∧
    (∀ (t : Topology) (env : DockerEnv), t.async_start env = t.start env) ∧
    (∀ (t : Topology) (env : DockerEnv), t.async_stop env = t.stop env) ∧
    (∀ (t : Topology) (env : DockerEnv) (c : Nat) (name node_type : String)
       (node_cls : NodeClsArg) (kw : Kwargs),
       t.async_add_node env c name node_type node_cls kw =
         t.add_node env c name node_type node_cls kw) ∧
    (∀ (t : Topology) (env : DockerEnv) (name node_type : String),
       t.async_remove_node env name node_type = t.remove_node env name node_type) := by
  refine ⟨fun n env => rfl, fun n env => rfl, tnode_async_start_eq, tnode_async_stop_eq,
    ?_, ?_, ?_, ?_⟩
  · intro t env
    simp only [Topology.async_start, Topology.start, asyncStartNodesLoop_eq,
      asyncStartLinksLoop_eq]
  · intro t env
    simp only [Topology.async_stop, Topology.stop, asyncStopNodesLoop_eq,
      asyncStartLinksLoop_eq]
  · intro t env c name node_type node_cls kw
    simp only [Topology.async_add_node, Topology.add_node, tnode_async_start_eq]
  · intro t env name node_type
    simp only [Topology.async_remove_node, Topology.remove_node, tnode_async_stop_eq]

/-- C10: when a host and a switch share a name, `get_node_by_name` (used by
`add_link`/`remove_link` to resolve endpoints) returns the host and never
the switch; likewise `get_node_cls` resolution prefers the host type table
over the switch type table for a name present in both. -/
theorem node_lookup_prefers_host :
    (∀ (t : Topology) (name : String) (h : TNode),
       dictGet t.hosts name = some h → t.get_node_by_name name = .ok h) ∧
    (∀ (hostTypes switchTypes : List (String × NodeClass)) (name : String)
       (c : NodeClass), dictGet hostTypes name = some c →
       get_node_cls_in hostTypes switchTypes name = .ok c) := by
  constructor
  · intro t name h hh
    simp [Topology.get_node_by_name, hh]
  · intro hostTypes switchTypes name c hc
    simp [get_node_cls_in, hc]

/-- Witness for C10: a topology where the name `x` is bound to one node in
`hosts` and to a different node in `switches` resolves to the hosts entry,
and a type name present in both built-in tables resolves to the host
class. -/
theorem node_lookup_prefers_host_witness :
    Topology.get_node_by_name
        ⟨"default", "default", "default", "default",
         [("x", ⟨1, [], .plain⟩)], [("x", ⟨2, [], .plain⟩)], []⟩ "x" =
      .ok ⟨1, [], .plain⟩ ∧
    get_node_cls_in HOST_TYPES SWITCH_TYPES "default" = .ok .hostCls := by
  exact ⟨node_lookup_prefers_host.1
            ⟨"default", "default", "default", "default",
             [("x", ⟨1, [], .plain⟩)], [("x", ⟨2, [], .plain⟩)], []⟩ "x"
            ⟨1, [], .plain⟩ (by decide),
         node_lookup_prefers_host.2 HOST_TYPES SWITCH_TYPES "default" .hostCls
            (by decide)⟩

/-- C7: resolving a name never registered for a kind fails (the
`UnknownType` kind, raised as `ValueError`), and after a factory is
registered under that `(kind, name)`, resolution succeeds and returns
exactly the registered factory. -/
theorem registry_miss_then_register_resolves :
    ∀ (tables : List (String × List (String × Nodes.Factory)))
      (tbl : List (String × Nodes.Factory)) (kind name : String)
      (f : Nodes.Factory),
      dictGet tables kind = some tbl →
      dictGet tbl name = none →
      Nodes.get_cls_by_name tables name kind = .error .valueError ∧
      Nodes.get_cls_by_name (Nodes.registerFactory tables kind name f) name kind =
        .ok f := by
  intro tables tbl kind name f htbl hname
  constructor
  · simp [Nodes.get_cls_by_name, htbl, hname]
  · simp [Nodes.get_cls_by_name, Nodes.registerFactory, htbl,
      dictGet_dictSet_self]

/-- Witness for C7: against the built-in registry, resolving the host name
`nonexistent` fails, and after registering a factory under it the same
lookup returns that factory. -/
theorem registry_miss_then_register_resolves_witness :
    Nodes.get_cls_by_name Nodes.NODES_BY_TYPE "nonexistent" "host" =
      .error .valueError ∧
    Nodes.get_cls_by_name
        (Nodes.registerFactory Nodes.NODES_BY_TYPE "host" "nonexistent" ⟨99⟩)
        "nonexistent" "host" = .ok ⟨99⟩ :=
  registry_miss_then_register_resolves Nodes.NODES_BY_TYPE [("default", ⟨1⟩)]
    "host" "nonexistent" ⟨99⟩ (by decide) (by decide)

end Mininet3

namespace Mininet3

/-- C4: `remove_node(name, category)` raises `KeyError` (the `NotFound`
kind) when the name is absent from the category's collection, leaving the
topology and the runtime unchanged; when the name is present the entry is
popped and only then is the popped object's stop attempted, so the
post-state always has the entry removed — a stop failure is surfaced as the
call's error but does not roll the removal back; and after the call the
name no longer resolves in the collection. -/
theorem remove_node_pops_before_stop :
    ∀ (t : Topology) (env : DockerEnv) (name : String),
      (dictGet t.hosts name = none →
         t.remove_node env name "hosts" = (t, env, some .keyError)) ∧
      (∀ n, dictGet t.hosts name = some n →
         t.remove_node env name "hosts" =
           ({ t with hosts := dictPop t.hosts name },
            (n.stop env).2.1, (n.stop env).2.2)) ∧
      (keysNodup t.hosts →
         dictGet (t.remove_node env name "hosts").1.hosts name = none) ∧
      (dictGet t.switches name = none →
         t.remove_node env name "switches" = (t, env, some .keyError)) ∧
      (∀ n, dictGet t.switches name = some n →
         t.remove_node env name "switches" =
           ({ t with switches := dictPop t.switches name },
            (n.stop env).2.1, (n.stop env).2.2)) ∧
      (keysNodup t.switches →
         dictGet (t.remove_node env name "switches").1.switches name = none) ∧
      (dictGet t.links name = none →
         t.remove_node env name "links" = (t, env, some .keyError)) ∧
      (∀ l, dictGet t.links name = some l →
         t.remove_node env name "links" =
           ({ t with links := dictPop t.links name }, env, some .attributeError)) ∧
      (keysNodup t.links →
         dictGet (t.remove_node env name "links").1.links name = none) := by
  intro t env name
  refine ⟨?_, ?_, ?_, ?_, ?_, ?_, ?_, ?_, ?_⟩
  · intro h
    simp [Topology.remove_node, h]
  · intro n h
    rcases hs : n.stop env with ⟨n', env', e⟩
    simp [Topology.remove_node, h, hs]
  · intro hnd
    cases h : dictGet t.hosts name with
    | none => simp [Topology.remove_node, h]
    | some n =>
      rcases hs : n.stop env with ⟨n', env', e⟩
      simp [Topology.remove_node, h, hs, dictGet_dictPop_self _ _ hnd]
  · intro h
    simp [Topology.remove_node, h]
  · intro n h
    rcases hs : n.stop env with ⟨n', env', e⟩
    simp [Topology.remove_node, h, hs]
  · intro hnd
    cases h : dictGet t.switches name with
    | none => simp [Topology.remove_node, h]
    | some n =>
      rcases hs : n.stop env with ⟨n', env', e⟩
      simp [Topology.remove_node, h, hs, dictGet_dictPop_self _ _ hnd]
  · intro h
    simp [Topology.remove_node, h]
  · intro l h
    simp [Topology.remove_node, h]
  · intro hnd
    cases h : dictGet t.links name with
    | none => simp [Topology.remove_node, h]
    | some l => simp [Topology.remove_node, h, dictGet_dictPop_self _ _ hnd]

/-- Witness for C4: removing the only host pops it even though its stop
raises `NotImplementedError` (the error is surfaced, the removal kept), and
removing a name absent from `switches` raises `KeyError` with nothing
changed. -/
theorem remove_node_pops_before_stop_witness :
    Topology.remove_node
        ⟨"default", "default", "default", "default",
         [("h", ⟨1, [], .plain⟩)], [], []⟩ ⟨0, []⟩ "h" "hosts" =
      (⟨"default", "default", "default", "default", [], [], []⟩, ⟨0, []⟩,
       some .notImplementedError) ∧
    Topology.remove_node
        ⟨"default", "default", "default", "default",
         [("h", ⟨1, [], .plain⟩)], [], []⟩ ⟨0, []⟩ "h" "switches" =
      (⟨"default", "default", "default", "default",
        [("h", ⟨1, [], .plain⟩)], [], []⟩, ⟨0, []⟩, some .keyError) := by
  constructor
  · have h := (remove_node_pops_before_stop
        ⟨"default", "default", "default", "default",
         [("h", ⟨1, [], .plain⟩)], [], []⟩ ⟨0, []⟩ "h").2.1
        ⟨1, [], .plain⟩ (by decide)
    simpa using h
  · have h := (remove_node_pops_before_stop
        ⟨"default", "default", "default", "default",
         [("h", ⟨1, [], .plain⟩)], [], []⟩ ⟨0, []⟩ "h").2.2.2.1 (by decide)
    simpa using h

end Mininet3

namespace Mininet3

theorem startNodesLoop_trace_of_ok (mkEv : String → Event)
    (l : List (String × TNode)) (env : DockerEnv)
    (h : (startNodesLoop mkEv l env).2.2.2 = none) :
    (startNodesLoop mkEv l env).2.2.1 = l.map (fun x => mkEv x.1) := by
  induction l generalizing env with
  | nil => rfl
  | cons hd tl ih =>
    cases hd with
    | mk nm n =>
      rcases hs : n.start env with ⟨n', env', e⟩
      cases e with
      | some err =>
        exfalso
        simp [startNodesLoop, hs] at h
      | none =>
        rcases hrec : startNodesLoop mkEv tl env' with ⟨rest', env'', evs, e'⟩
        have he' : e' = none := by
          simpa [startNodesLoop, hs, hrec] using h
        have htr := ih env' (by rw [hrec]; simpa using he')
        rw [hrec] at htr
        simp only at htr
        simp [startNodesLoop, hs, hrec, htr]

theorem startLinksLoop_nil_of_ok (mkEv : String → Event)
    (l : List (String × LinkObj)) (h : (startLinksLoop mkEv l).2.2 = none) :
    l = [] := by
  cases l with
  | nil => rfl
  | cons hd tl => simp [startLinksLoop] at h

/-- C8: a `start()` that raises nothing has invoked start on every host in
insertion order, then on every switch in insertion order, then on every
link — the fixed host, switch, link category order. -/
theorem start_invokes_hosts_then_switches_then_links
    (t : Topology) (env : DockerEnv) (h : (t.start env).2.2.2 = none) :
    (t.start env).2.2.1 =
      t.hosts.map (fun x => Event.startHost x.1) ++
      t.switches.map (fun x => Event.startSwitch x.1) ++
      t.links.map (fun x => Event.startLink x.1) := by
  unfold Topology.start at h ⊢
  dsimp only at h ⊢
  cases hE1 : (startNodesLoop Event.startHost t.hosts env).2.2.2 with
  | some err =>
    rw [hE1] at h
    simp at h
  | none =>
    rw [hE1] at h
    dsimp only at h ⊢
    cases hE2 : (startNodesLoop Event.startSwitch t.switches
        (startNodesLoop Event.startHost t.hosts env).2.1).2.2.2 with
    | some err =>
      rw [hE2] at h
      simp at h
    | none =>
      rw [hE2] at h
      dsimp only at h ⊢
      have hnil : t.links = [] := startLinksLoop_nil_of_ok _ _ h
      have hev1 := startNodesLoop_trace_of_ok Event.startHost t.hosts env hE1
      have hev2 := startNodesLoop_trace_of_ok Event.startSwitch t.switches
        (startNodesLoop Event.startHost t.hosts env).2.1 hE2
      rw [hnil]
      simp [startLinksLoop, hev1, hev2]

/-- Witness for C8: with hosts inserted as `h2` then `h1` and the single
switch `s1` (all docker-backed so their starts succeed), `start()` invokes
`h2`, then `h1`, then `s1`. -/
theorem start_invokes_hosts_then_switches_then_links_witness :
    (Topology.start
        ⟨"default", "default", "default", "default",
         [("h2", ⟨1, [], .docker ⟨some "img", some "cmd", none⟩⟩),
          ("h1", ⟨2, [], .docker ⟨some "img", some "cmd", none⟩⟩)],
         [("s1", ⟨3, [], .docker ⟨some "img", some "cmd", none⟩⟩)], []⟩
        ⟨0, []⟩).2.2.1 =
      [Event.startHost "h2", Event.startHost "h1", Event.startSwitch "s1"] := by
  have h := start_invokes_hosts_then_switches_then_links
      ⟨"default", "default", "default", "default",
       [("h2", ⟨1, [], .docker ⟨some "img", some "cmd", none⟩⟩),
        ("h1", ⟨2, [], .docker ⟨some "img", some "cmd", none⟩⟩)],
       [("s1", ⟨3, [], .docker ⟨some "img", some "cmd", none⟩⟩)], []⟩
      ⟨0, []⟩ (by decide)
  simpa using h

end Mininet3

namespace Mininet3

/-- C3 counterexample: in a topology with two hosts where the first host's
stop raises (its recorded container is unknown to the runtime — the
`ExecutionFailure` kind), `Topology.stop()` raises that error immediately:
the only stop invoked is the failing host's, and the second host's
container is still running afterwards — it never reaches Stopped, and no
aggregate error is produced. -/
theorem stop_does_not_continue_after_failure :
    (Topology.stop
        ⟨"default", "default", "default", "default",
         [("h1", ⟨1, [], .docker ⟨some "i", some "c", some 5⟩⟩),
          ("h2", ⟨2, [], .docker ⟨some "i", some "c", some 7⟩⟩)], [], []⟩
        ⟨8, [(7, true)]⟩).2.2.2 = some .dockerNotFound ∧
    (Topology.stop
        ⟨"default", "default", "default", "default",
         [("h1", ⟨1, [], .docker ⟨some "i", some "c", some 5⟩⟩),
          ("h2", ⟨2, [], .docker ⟨some "i", some "c", some 7⟩⟩)], [], []⟩
        ⟨8, [(7, true)]⟩).2.2.1 = [Event.stopHost "h1"] ∧
    dictGet (Topology.stop
        ⟨"default", "default", "default", "default",
         [("h1", ⟨1, [], .docker ⟨some "i", some "c", some 5⟩⟩),
          ("h2", ⟨2, [], .docker ⟨some "i", some "c", some 7⟩⟩)], [], []⟩
        ⟨8, [(7, true)]⟩).2.1.containers 7 = some true := by
  decide

theorem stopNodesLoop_trace_of_ok (mkEv : String → Event)
    (l : List (String × TNode)) (env : DockerEnv)
    (h : (stopNodesLoop mkEv l env).2.2.2 = none) :
    (stopNodesLoop mkEv l env).2.2.1 = l.map (fun x => mkEv x.1) := by
  induction l generalizing env with
  | nil => rfl
  | cons hd tl ih =>
    cases hd with
    | mk nm n =>
      rcases hs : n.stop env with ⟨n', env', e⟩
      cases e with
      | some err =>
        exfalso
        simp [stopNodesLoop, hs] at h
      | none =>
        rcases hrec : stopNodesLoop mkEv tl env' with ⟨rest', env'', evs, e'⟩
        have he' : e' = none := by
          simpa [stopNodesLoop, hs, hrec] using h
        have htr := ih env' (by rw [hrec]; simpa using he')
        rw [hrec] at htr
        simp only at htr
        simp [stopNodesLoop, hs, hrec, htr]

theorem stopNodesLoop_append_fail (mkEv : String → Event)
    (pre : List (String × TNode)) (nm : String) (n : TNode)
    (post : List (String × TNode)) (env : DockerEnv) (err : PyErr)
    (hok : (stopNodesLoop mkEv pre env).2.2.2 = none)
    (hfail : (n.stop (stopNodesLoop mkEv pre env).2.1).2.2 = some err) :
    stopNodesLoop mkEv (pre ++ (nm, n) :: post) env =
      ((stopNodesLoop mkEv pre env).1 ++
         (nm, (n.stop (stopNodesLoop mkEv pre env).2.1).1) :: post,
       (n.stop (stopNodesLoop mkEv pre env).2.1).2.1,
       (stopNodesLoop mkEv pre env).2.2.1 ++ [mkEv nm],
       some err) := by
  induction pre generalizing env with
  | nil =>
    have hfail2 : (n.stop env).2.2 = some err := hfail
    rcases hs : n.stop env with ⟨n', env', e⟩
    rw [hs] at hfail2
    simp only at hfail2
    subst hfail2
    simp [stopNodesLoop, hs]
  | cons hd tl ih =>
    rcases hd with ⟨nm0, n0⟩
    rcases hs0 : n0.stop env with ⟨n0', env0, e0⟩
    cases e0 with
    | some e =>
      exfalso
      simp [stopNodesLoop, hs0] at hok
    | none =>
      have hok' : (stopNodesLoop mkEv tl env0).2.2.2 = none := by
        simpa [stopNodesLoop, hs0] using hok
      have hfail' : (n.stop (stopNodesLoop mkEv tl env0).2.1).2.2 = some err := by
        simpa [stopNodesLoop, hs0] using hfail
      have hrec := ih env0 hok' hfail'
      simp [stopNodesLoop, hs0, hrec]

/-- C3 amended: `Topology.stop()` aborts at the first sub-node whose stop
fails, wherever that node sits in iteration order: every host before it in
insertion order is stopped, the failing host's stop is then invoked and
its error propagates at once, and the hosts after it — and all switches
and links — are never stopped (they stay in the collections untouched and
the runtime is unchanged beyond the stops already made); no aggregate
error is built. -/
theorem stop_aborts_on_first_failing_host :
    ∀ (t : Topology) (env : DockerEnv) (pre : List (String × TNode))
      (nm : String) (n : TNode) (post : List (String × TNode)) (err : PyErr),
      t.hosts = pre ++ (nm, n) :: post →
      (stopNodesLoop Event.stopHost pre env).2.2.2 = none →
      (n.stop (stopNodesLoop Event.stopHost pre env).2.1).2.2 = some err →
      t.stop env =
        ({ t with hosts :=
             (stopNodesLoop Event.stopHost pre env).1 ++
               (nm, (n.stop (stopNodesLoop Event.stopHost pre env).2.1).1) :: post },
         (n.stop (stopNodesLoop Event.stopHost pre env).2.1).2.1,
         pre.map (fun x => Event.stopHost x.1) ++ [Event.stopHost nm],
         some err) := by
  intro t env pre nm n post err hh hok hfail
  have happ := stopNodesLoop_append_fail Event.stopHost pre nm n post env err
    hok hfail
  have htr := stopNodesLoop_trace_of_ok Event.stopHost pre env hok
  unfold Topology.stop
  rw [hh, happ]
  dsimp only
  rw [htr]

/-- Witness for C3 amended: a three-host topology whose middle host's stop
fails with an unknown container — the first host is stopped (its container
marked not running), the error is the middle host's, and the third host's
container is still running. -/
theorem stop_aborts_on_first_failing_host_witness :
    Topology.stop
        ⟨"default", "default", "default", "default",
         [("h0", ⟨1, [], .docker ⟨some "i", some "c", some 3⟩⟩),
          ("h1", ⟨2, [], .docker ⟨some "i", some "c", some 5⟩⟩),
          ("h2", ⟨4, [], .docker ⟨some "i", some "c", some 7⟩⟩)], [], []⟩
        ⟨8, [(3, true), (7, true)]⟩ =
      (⟨"default", "default", "default", "default",
        [("h0", ⟨1, [], .docker ⟨some "i", some "c", some 3⟩⟩),
         ("h1", ⟨2, [], .docker ⟨some "i", some "c", some 5⟩⟩),
         ("h2", ⟨4, [], .docker ⟨some "i", some "c", some 7⟩⟩)], [], []⟩,
       ⟨8, [(3, false), (7, true)]⟩,
       [Event.stopHost "h0", Event.stopHost "h1"], some .dockerNotFound) := by
  have h := stop_aborts_on_first_failing_host
      ⟨"default", "default", "default", "default",
       [("h0", ⟨1, [], .docker ⟨some "i", some "c", some 3⟩⟩),
        ("h1", ⟨2, [], .docker ⟨some "i", some "c", some 5⟩⟩),
        ("h2", ⟨4, [], .docker ⟨some "i", some "c", some 7⟩⟩)], [], []⟩
      ⟨8, [(3, true), (7, true)]⟩
      [("h0", ⟨1, [], .docker ⟨some "i", some "c", some 3⟩⟩)] "h1"
      ⟨2, [], .docker ⟨some "i", some "c", some 5⟩⟩
      [("h2", ⟨4, [], .docker ⟨some "i", some "c", some 7⟩⟩)] .dockerNotFound
      rfl (by decide) (by decide)
  rw [h]
  decide

end Mininet3

namespace Mininet3

/-- C6 counterexample: `stop()` on a node that never started does raise —
its `container_id` is `None`, and the container lookup with a null id
raises (docker `NullResource`) — so the claim that two successive stops
raise nothing on any node fails already at the first call on a
never-started node. -/
theorem stop_never_started_raises :
    DockerNode.stop ⟨some "img", some "cmd", none⟩ ⟨0, []⟩ =
      (⟨some "img", some "cmd", none⟩, ⟨0, []⟩, some .nullResource) := by
  decide

/-- C6 amended: on a node whose recorded container is known to the runtime
(a previously started node), `stop()` raises nothing and is idempotent —
the second call raises nothing either and leaves node and runtime exactly
as after the first; on a never-started node (`container_id` is `None`),
`stop()` raises on every call (docker `NullResource`) and changes nothing,
so the two calls do leave the same state but each raises rather than being
a no-op. -/
theorem stop_twice_amended :
    (∀ (n : DockerNode) (env : DockerEnv) (i : Nat) (b : Bool),
       n.container_id = some i → dictGet env.containers i = some b →
       n.stop env = (n, env.stopContainer i, none) ∧
       n.stop (env.stopContainer i) = (n, env.stopContainer i, none)) ∧
    (∀ (n : DockerNode) (env : DockerEnv), n.container_id = none →
       n.stop env = (n, env, some .nullResource)) := by
  constructor
  · intro n env i b hcid hct
    constructor
    · simp [DockerNode.stop, DockerEnv.get, hcid, hct]
    · have hct' : dictGet (env.stopContainer i).containers i = some false :=
        dictGet_dictSet_self env.containers i false
      have hidem : (env.stopContainer i).stopContainer i = env.stopContainer i := by
        simp [DockerEnv.stopContainer, dictSet_dictSet]
      simp [DockerNode.stop, DockerEnv.get, hcid, hct', hidem]
  · intro n env hcid
    simp [DockerNode.stop, DockerEnv.get, hcid]

/-- Witness for C6 amended: a node with container `3` recorded and known to
the runtime stops cleanly twice; a node with no recorded container raises
`NullResource`. -/
theorem stop_twice_amended_witness :
    (DockerNode.stop ⟨some "img", some "cmd", some 3⟩ ⟨4, [(3, true)]⟩ =
       (⟨some "img", some "cmd", some 3⟩, ⟨4, [(3, false)]⟩, none)) ∧
    (DockerNode.stop ⟨some "img", some "cmd", some 3⟩ ⟨4, [(3, false)]⟩ =
       (⟨some "img", some "cmd", some 3⟩, ⟨4, [(3, false)]⟩, none)) ∧
    (DockerNode.stop ⟨some "img", some "cmd", none⟩ ⟨4, [(3, true)]⟩ =
       (⟨some "img", some "cmd", none⟩, ⟨4, [(3, true)]⟩, some .nullResource)) := by
  have h1 := stop_twice_amended.1 ⟨some "img", some "cmd", some 3⟩
      ⟨4, [(3, true)]⟩ 3 true rfl (by decide)
  have h2 := stop_twice_amended.2 ⟨some "img", some "cmd", none⟩
      ⟨4, [(3, true)]⟩ rfl
  refine ⟨by simpa using h1.1, by simpa using h1.2, by simpa using h2⟩

end Mininet3

namespace Mininet3

/-- C2 counterexample: `add_node` with a name already bound in `hosts`
does not fail with any duplicate-name error and does not leave the
existing entity in place — the stored entity is replaced by the newly
constructed node (the call's only error is the new node's start raising
`NotImplementedError`, after the overwrite). -/
theorem add_node_duplicate_overwrites :
    (Topology.add_node
        ⟨"default", "default", "default", "default",
         [("h", ⟨99, [], .plain⟩)], [], []⟩
        ⟨0, []⟩ 0 "h" "hosts" .pynone ⟨none, none, 1, "default"⟩).1.hosts =
      [("h", ⟨1, [(IKey.idx 0, IVal.iface ⟨0⟩)], .plain⟩)] ∧
    (Topology.add_node
        ⟨"default", "default", "default", "default",
         [("h", ⟨99, [], .plain⟩)], [], []⟩
        ⟨0, []⟩ 0 "h" "hosts" .pynone ⟨none, none, 1, "default"⟩).2.2.2 =
      some .notImplementedError := by
  decide

/-- C2 amended: `add_node` performs no duplicate check: whenever type
resolution and construction succeed, the newly constructed (and then
started) node is stored under the name with plain dict assignment — for a
name already present this silently replaces the previous entity, which is
no longer reachable from the collection; the only error the call can
surface is from resolution, construction, or the new node's start. -/
theorem add_node_overwrites_amended :
    ∀ (t : Topology) (env : DockerEnv) (c : Nat) (name : String)
      (cls : NodeClsArg) (kw : Kwargs) (ncls : NodeClass) (node : TNode)
      (c' : Nat),
      (t.resolveNodeCls "hosts" cls = .ok ncls →
       ncls.construct kw c = .ok (node, c') →
       t.add_node env c name "hosts" cls kw =
         ({ t with hosts := dictSet t.hosts name (node.start env).1 },
          (node.start env).2.1, c', (node.start env).2.2) ∧
       dictGet (t.add_node env c name "hosts" cls kw).1.hosts name =
         some (node.start env).1) ∧
      (t.resolveNodeCls "switches" cls = .ok ncls →
       ncls.construct kw c = .ok (node, c') →
       t.add_node env c name "switches" cls kw =
         ({ t with switches := dictSet t.switches name (node.start env).1 },
          (node.start env).2.1, c', (node.start env).2.2) ∧
       dictGet (t.add_node env c name "switches" cls kw).1.switches name =
         some (node.start env).1) := by
  intro t env c name cls kw ncls node c'
  constructor
  · intro hres hcon
    rcases hs : node.start env with ⟨n', env', e⟩
    have hmain : t.add_node env c name "hosts" cls kw =
        ({ t with hosts := dictSet t.hosts name n' }, env', c', e) := by
      simp [Topology.add_node, hres, hcon, hs, dictSet_dictSet]
    refine ⟨by simpa [hs] using hmain, ?_⟩
    rw [hmain]
    simpa [hs] using dictGet_dictSet_self t.hosts name n'
  · intro hres hcon
    rcases hs : node.start env with ⟨n', env', e⟩
    have hmain : t.add_node env c name "switches" cls kw =
        ({ t with switches := dictSet t.switches name n' }, env', c', e) := by
      simp [Topology.add_node, hres, hcon, hs, dictSet_dictSet]
    refine ⟨by simpa [hs] using hmain, ?_⟩
    rw [hmain]
    simpa [hs] using dictGet_dictSet_self t.switches name n'

/-- Witness for C2 amended: adding a host under the already-present name
`h` replaces the stored entity with the newly constructed node and
surfaces only the new node's start error. -/
theorem add_node_overwrites_amended_witness :
    Topology.add_node
        ⟨"default", "default", "default", "default",
         [("h", ⟨99, [], .plain⟩)], [], []⟩
        ⟨0, []⟩ 0 "h" "hosts" .pynone ⟨none, none, 1, "default"⟩ =
      (⟨"default", "default", "default", "default",
        [("h", ⟨1, [(IKey.idx 0, IVal.iface ⟨0⟩)], .plain⟩)], [], []⟩,
       ⟨0, []⟩, 2, some .notImplementedError) := by
  have h := (add_node_overwrites_amended
      ⟨"default", "default", "default", "default",
       [("h", ⟨99, [], .plain⟩)], [], []⟩
      ⟨0, []⟩ 0 "h" .pynone ⟨none, none, 1, "default"⟩ .hostCls
      ⟨1, [(IKey.idx 0, IVal.iface ⟨0⟩)], .plain⟩ 2).1 (by decide) (by decide)
  simpa using h.1

end Mininet3

namespace MirrorNet

/-- C5 counterexample: for the valid pair (10.0.0.0, /31) — network address
`167772160` — the first address the allocator yields *is* the network
address, so the claim that every yielded address lies strictly inside the
usable range, excluding the network and broadcast addresses, fails (the
`hosts()` iterator yields both addresses of a /31). -/
theorem allocator_yields_network_address :
    validNet 167772160 31 ∧
    (ipHosts 167772160 31).get? 0 = some 167772160 ∧
    ¬ (∀ a ∈ ipHosts 167772160 31,
         167772160 < a ∧ a < 167772160 + 2 ^ (32 - 31) - 1) := by
  refine ⟨by decide, by decide, fun h => ?_⟩
  exact absurd (h 167772160 (by decide)).1 (lt_irrefl _)

/-- C5 amended: for prefixes up to 30 every yielded address lies strictly
between the network and broadcast addresses; for /31 both addresses of the
pair and for /32 the single address are yielded (network address
included); the sequence is strictly increasing (hence repeat-free) for
every prefix, is a pure function of (base, prefix), and `next()` yields
exactly the addresses of the sequence in order and raises (StopIteration,
the `AddressSpaceExhausted` kind) precisely once the sequence is
consumed. -/
theorem allocator_amended :
    (∀ n p, p ≤ 30 → ∀ a ∈ ipHosts n p,
       n < a ∧ a < n + 2 ^ (32 - p) - 1) ∧
    (∀ n p, (ipHosts n p).Pairwise (· < ·)) ∧
    (∀ n, ipHosts n 31 = [n, n + 1]) ∧
    (∀ n, ipHosts n 32 = [n]) ∧
    (∀ (a : Allocator) (v : Nat) (a2 : Allocator),
       a.generate_ip = .ok (v, a2) →
       (ipHosts a.base a.cidr).get? a.consumed = some v ∧
       a2 = ⟨a.base, a.cidr, a.consumed + 1⟩) ∧
    (∀ a : Allocator,
       a.generate_ip = .error .stopIteration ↔
       (ipHosts a.base a.cidr).length ≤ a.consumed) := by
  refine ⟨?_, ?_, ?_, ?_, ?_, ?_⟩
  · intro n p hp a ha
    rw [ipHosts, if_pos hp] at ha
    simp only [List.mem_map, List.mem_range] at ha
    obtain ⟨i, hi, rfl⟩ := ha
    have h4 : (4 : Nat) ≤ 2 ^ (32 - p) := by
      calc (4 : Nat) = 2 ^ 2 := by norm_num
      _ ≤ 2 ^ (32 - p) := Nat.pow_le_pow_right (by norm_num) (by omega)
    omega
  · intro n p
    rw [ipHosts]
    by_cases hp : p ≤ 30
    · rw [if_pos hp]
      exact List.Pairwise.map _ (fun a b h => by omega)
        (List.pairwise_lt_range _)
    · rw [if_neg hp]
      by_cases h31 : p = 31
      · rw [if_pos h31]
        simp [List.pairwise_cons]
      · rw [if_neg h31]
        simp
  · intro n
    rw [ipHosts]
    norm_num
  · intro n
    rw [ipHosts]
    norm_num
  · intro a v a2 h
    rw [Allocator.generate_ip] at h
    cases hg : (ipHosts a.base a.cidr).get? a.consumed with
    | none => rw [hg] at h; exact absurd h (by simp)
    | some w =>
      rw [hg] at h
      simp only [Except.ok.injEq, Prod.mk.injEq] at h
      exact ⟨by rw [h.1], h.2.symm⟩
  · intro a
    rw [Allocator.generate_ip]
    constructor
    · intro h
      cases hg : (ipHosts a.base a.cidr).get? a.consumed with
      | none => exact List.get?_eq_none.mp hg
      | some w => rw [hg] at h; exact absurd h (by simp)
    · intro h
      rw [List.get?_eq_none.mpr h]

/-- Witness for C5 amended: for 10.0.0.0/30 the first usable address lies
strictly between network and broadcast, and an allocator for 10.0.0.0/32
that has yielded its single address raises `StopIteration`. -/
theorem allocator_amended_witness :
    (167772160 < 167772161 ∧ 167772161 < 167772160 + 2 ^ (32 - 30) - 1) ∧
    Allocator.generate_ip ⟨167772160, 32, 1⟩ = .error .stopIteration := by
  constructor
  · exact allocator_amended.1 167772160 30 (by decide) 167772161 (by decide)
  · exact (allocator_amended.2.2.2.2.2 ⟨167772160, 32, 1⟩).2 (by decide)

end MirrorNet

namespace Mininet3

/-- Two hosts `A` and `B`, each with a single interface at index 0, used to
exercise the link round trip. -/
def linkDemoTopo : Topology :=
  ⟨"default", "default", "default", "default",
   [("A", ⟨1, [(IKey.idx 0, IVal.iface ⟨10⟩)], .plain⟩),
    ("B", ⟨2, [(IKey.idx 0, IVal.iface ⟨20⟩)], .plain⟩)], [], []⟩

/-- C1: the round-trip law fails on the code.  After a *successful*
`add_link("l", "A.0", "B.0", link_type="default")`, the interface objects
hold no peer references at all: each node's `interfaces` dict still maps
the integer index 0 to its original bare `Interface` object (the class has
no peer attribute), and the only wiring recorded is the peer's port
*string* stored under a port-string key.  The subsequent
`remove_link("l")` pops the link and then raises `AttributeError` at
`link.stop()` — contradicting its own docstring, which documents only
`KeyError` — so the wiring entries are never cleared: the interfaces are
not returned to an unconnected state. -/
theorem add_link_remove_link_round_trip_fails :
    (linkDemoTopo.add_link "l" "A.0" "B.0" (some "default")).2 = none ∧
    (linkDemoTopo.add_link "l" "A.0" "B.0" (some "default")).1.hosts =
      [("A", ⟨1, [(IKey.idx 0, IVal.iface ⟨10⟩),
                  (IKey.str "0", IVal.port "0")], .plain⟩),
       ("B", ⟨2, [(IKey.idx 0, IVal.iface ⟨20⟩),
                  (IKey.str "0", IVal.port "0")], .plain⟩)] ∧
    (linkDemoTopo.add_link "l" "A.0" "B.0" (some "default")).1.links =
      [("l", LinkObj.mk)] ∧
    ((linkDemoTopo.add_link "l" "A.0" "B.0" (some "default")).1.remove_link
        "l").2 = some .attributeError ∧
    ((linkDemoTopo.add_link "l" "A.0" "B.0" (some "default")).1.remove_link
        "l").1.hosts =
      [("A", ⟨1, [(IKey.idx 0, IVal.iface ⟨10⟩),
                  (IKey.str "0", IVal.port "0")], .plain⟩),
       ("B", ⟨2, [(IKey.idx 0, IVal.iface ⟨20⟩),
                  (IKey.str "0", IVal.port "0")], .plain⟩)] ∧
    ((linkDemoTopo.add_link "l" "A.0" "B.0" (some "default")).1.remove_link
        "l").1.links = [] := by
  decide

end Mininet3
